import Mathlib

/-!
Verification of the chat endpoint in `app.py` (Flask AI-Chatbot).

The development shallowly embeds the `POST /chat` handler (`chat` in
`app.py`) and the state it manipulates:

* `Json` models the parsed JSON value obtained from
  `request.get_json(force=True)` (JSON numbers are modelled as integers;
  no property below involves fractional numbers; an `obj` models a parsed
  Python dict, so its keys are unique).
* `PyErr` models Python exceptions that can escape the extraction line
  `data.get("messages", [])[-1].get("content", "")`, which sits OUTSIDE
  the handler's try/except block.
* `Store` models the module-level dict `conversation_history`; a
  `Conversation` is the ordered list of turns held by the (mutable)
  transformers `Conversation` object.
* The Model Gateway (`conversational_pipeline`) is the external
  collaborator; it is modelled as an opaque fallible function from the
  full conversation to the generated reply, `none` when the pipeline
  failed to load at startup.

A crucial point of fidelity: `conversation_history.get(user_id, ...)`
returns the stored `Conversation` object ITSELF when the user already has
an entry, and `history.add_user_message(...)` then mutates that shared
object in place, so the mutation is visible through the store even though
`conversation_history[user_id] = history` (save) has not run yet.  The
embedding makes this write-through explicit (`existed` branch in `chat`).
-/

/-- A parsed JSON value, as produced by `request.get_json(force=True)`. -/
inductive Json where
  | null
  | bool (b : Bool)
  | num (n : Int)
  | str (s : String)
  | arr (elems : List Json)
  | obj (fields : List (String × Json))

/-- Python exceptions that can escape the handler (raised on the
extraction line 89, which is outside the `try:` block). -/
inductive PyErr where
  | attributeError
  | typeError
  | keyError
  | indexError
deriving DecidableEq

/-- Role tag of a conversation turn. -/
inductive Role where
  | user
  | assistant
deriving DecidableEq, BEq

/-- One turn of a conversation: a role together with the payload that was
appended (`add_user_message` receives whatever the extraction produced,
hence a `Json`; replies are strings). -/
structure Turn where
  role : Role
  content : Json

/-- A conversation: the ordered message list held by one transformers
`Conversation` object. -/
abbrev Conversation := List Turn

/-- The module-level dict `conversation_history : user id → conversation`. -/
abbrev Store := String → Option Conversation

/-- The opaque Model Gateway: given the full conversation it either raises
(the `Exception` message) or produces the reply that the handler reads off
as `response.generated_responses[-1]`. -/
abbrev Gateway := Conversation → Except String String

/-- Python `dict` lookup on a parsed JSON object (keys of a parsed dict
are unique, so first-match lookup is exact). -/
def jlookup : List (String × Json) → String → Option Json
  | [], _ => none
  | (k, v) :: rest, key => if k = key then some v else jlookup rest key

/-- Python truthiness of a JSON value (`if data.get("messages")`,
`if not user_message`). -/
def pyTruthy : Json → Bool
  | .null => false
  | .bool b => b
  | .num n => n != 0
  | .str s => s != ""
  | .arr xs => !xs.isEmpty
  | .obj kvs => !kvs.isEmpty

/-- Python `v[-1]`: last element of a list, last character of a string,
`KeyError` on a dict whose keys are strings, `TypeError` on
non-subscriptable values, `IndexError` on empty sequences. -/
def pyLastItem : Json → Except PyErr Json
  | .arr xs =>
      match xs.getLast? with
      | some x => .ok x
      | none => .error .indexError
  | .str s => if s.isEmpty then .error .indexError else .ok (.str s.back.toString)
  | .obj _ => .error .keyError
  | .null => .error .typeError
  | .bool _ => .error .typeError
  | .num _ => .error .typeError

/-- Python `v.get(key, default)`: defined on dicts only, `AttributeError`
on every other value. -/
def pyDictGet (v : Json) (key : String) (dflt : Json) : Except PyErr Json :=
  match v with
  | .obj kvs => .ok ((jlookup kvs key).getD dflt)
  | _ => .error .attributeError

/-- Line 89 of `app.py`:
`data.get("messages", [])[-1].get("content", "") if data.get("messages") else ""`.
The condition is evaluated first; when falsy the result is `""`. -/
def extractUserMessage (data : Json) : Except PyErr Json :=
  match pyDictGet data "messages" .null with
  | .error e => .error e
  | .ok msgs =>
      if pyTruthy msgs then
        match pyLastItem msgs with
        | .error e => .error e
        | .ok last => pyDictGet last "content" (.str "")
      else
        .ok (.str "")

mutual

/-- Python `repr` of a JSON-shaped value, used for elements of containers
in f-strings.  Quote-selection and character escaping of Python string
repr are not modelled (no property below evaluates the echo text on a
container). -/
def pyRepr : Json → String
  | .null => "None"
  | .bool true => "True"
  | .bool false => "False"
  | .num n => toString n
  | .str s => "\x27" ++ s ++ "\x27"
  | .arr xs => "[" ++ String.intercalate ", " (pyReprList xs) ++ "]"
  | .obj kvs => "\x7b" ++ String.intercalate ", " (pyReprFields kvs) ++ "\x7d"

/-- `repr` of each element of a Python list. -/
def pyReprList : List Json → List String
  | [] => []
  | x :: xs => pyRepr x :: pyReprList xs

/-- `'key': repr(value)` for each entry of a Python dict. -/
def pyReprFields : List (String × Json) → List String
  | [] => []
  | (k, v) :: rest => ("\x27" ++ k ++ "\x27: " ++ pyRepr v) :: pyReprFields rest

end

/-- Python `str` of a JSON-shaped value, as interpolated by the f-string
`f"Echo: ... "` (a string interpolates as itself). -/
def pyStr : Json → String
  | .str s => s
  | v => pyRepr v

/-- `jsonify` body for error responses. -/
def errorBody (msg : String) : Json := .obj [("error", .str msg)]

/-- `jsonify` body for success responses. -/
def responseBody (msg : String) : Json := .obj [("response", .str msg)]

/-- An HTTP response: status code and JSON body. -/
structure HttpResp where
  status : Nat
  body : Json

/-- `conversation_history[user_id] = conv` (also used for the in-place
write-through of a mutated stored object). -/
def saveConv (st : Store) (u : String) (c : Conversation) : Store :=
  fun k => if k = u then some c else st k

/-- The `POST /chat` handler (`chat` in `app.py`, lines 78-137), after the
front door has parsed the JSON body into `data` and read the `User-ID`
header into `userId`.  Returns `.error` exactly when a Python exception
escapes the handler (only possible on the extraction line, which precedes
the `try:` block); otherwise returns the HTTP response together with the
resulting `conversation_history`.

Fidelity notes:
* `conversation_history.get(user_id, pipeline.create_new_conversation())`
  evaluates the fresh-conversation default eagerly, but that is pure; when
  the user has an entry the returned `history` aliases the stored object.
* `history.add_user_message(...)` therefore mutates the stored
  conversation in place when (and only when) the entry existed — modelled
  by the `existed` write-through `st'`.
* a gateway exception (or an empty `generated_responses`) is caught by
  the `except` and answered with 500; no `save` runs on that path, but
  the in-place mutation is already visible.
* on success `add_ai_response` extends the same object and
  `conversation_history[user_id] = history` stores it. -/
def chat (pipeline : Option Gateway) (st : Store) (userId : String) (data : Json) :
    Except PyErr (HttpResp × Store) :=
  match extractUserMessage data with
  | .error e => .error e
  | .ok userMessage =>
      if !pyTruthy userMessage then
        .ok (⟨400, errorBody "Please provide a message"⟩, st)
      else
        match pipeline with
        | some g =>
            let existed := (st userId).isSome
            let history := (st userId).getD []
            let history1 := history ++ [⟨Role.user, userMessage⟩]
            let st' := if existed then saveConv st userId history1 else st
            match g history1 with
            | .error e => .ok (⟨500, errorBody e⟩, st')
            | .ok aiResponse =>
                let history2 := history1 ++ [⟨Role.assistant, .str aiResponse⟩]
                .ok (⟨200, responseBody aiResponse⟩, saveConv st' userId history2)
        | none =>
            .ok (⟨200,
              responseBody ("Echo: " ++ pyStr userMessage ++ " (Conversational AI not loaded)")⟩,
              st)

/-- The `conversation_history` left behind by one handler invocation (an
escaped extraction exception happens before any store access, so the
store is unchanged on that path). -/
def chatStore (pipeline : Option Gateway) (st : Store) (userId : String) (data : Json) :
    Store :=
  match chat pipeline st userId data with
  | .ok (_, st') => st'
  | .error _ => st

/-- The other role. -/
def roleFlip : Role → Role
  | .user => .assistant
  | .assistant => .user

/-- `alternatesFrom r c` : the turns of `c` alternate roles starting
with `r`. -/
def alternatesFrom : Role → Conversation → Bool
  | _, [] => true
  | r, t :: ts => (t.role == r) && alternatesFrom (roleFlip r) ts

/-- The spec's conversation-shape invariant: turns alternate roles
starting with a user turn. -/
def alternates (c : Conversation) : Bool := alternatesFrom Role.user c

/-- Shapes of `data` on which the extraction line runs without raising: a
dict whose `messages` entry is absent or falsy, or is a (necessarily
non-empty) list whose last element is a dict. -/
def extractionSafe (data : Json) : Bool :=
  match data with
  | .obj kvs =>
      match jlookup kvs "messages" with
      | none => true
      | some v =>
          if pyTruthy v then
            match v with
            | .arr xs =>
                match xs.getLast? with
                | some (.obj _) => true
                | _ => false
            | _ => false
          else true
  | _ => false

/-!
### Concurrency model of two racing requests (lines 99-120)

Flask may dispatch handler invocations on concurrent threads that share
the module-level `conversation_history`.  To examine the uncoordinated
read-modify-write of lines 99-120 we model two in-flight successful
requests for the same user, at the granularity of their store and object
accesses:

* step 0 (lines 99-105): `conversation_history.get(user_id, fresh)`
  followed by `history.add_user_message(...)` — reads the dict; for a new
  user this yields a fresh conversation object that the dict does NOT
  reference.
* step 1 (lines 109-119): the gateway call plus
  `history.add_ai_response(...)`, extending the thread's own object.
* step 2 (line 120): `conversation_history[user_id] = history`.

Conversation objects live in a heap (an arena addressed by allocation
order) so distinct threads can hold distinct objects for the same user
identifier, exactly as distinct Python `Conversation` objects.  A
schedule lists which thread performs each next step; every coarse step is
an uninterrupted run of the underlying Python operations, so each
behaviour of this model is a genuine thread interleaving of the source.
Both requests are taken successful (the gateway is a total reply
function), as in the claim.
-/

/-- Association-list lookup for `conversation_history` (user identifier
to heap address of its conversation object). -/
def alistLookup : List (String × Nat) → String → Option Nat
  | [], _ => none
  | (k, p) :: rest, u => if k = u then some p else alistLookup rest u

/-- `conversation_history[user_id] = ptr`. -/
def alistInsert : List (String × Nat) → String → Nat → List (String × Nat)
  | [], u, p => [(u, p)]
  | (k, q) :: rest, u, p =>
      if k = u then (u, p) :: rest else (k, q) :: alistInsert rest u p

/-- One in-flight request: its user identifier and message, its program
counter (0 before step 0, …, 3 when done) and the heap address of the
conversation object it holds. -/
structure RThread where
  user : String
  msg : String
  pc : Nat
  ptr : Nat

/-- Shared state of the race: the heap of conversation objects, the dict
`conversation_history` (user to heap address), and the two threads. -/
structure RaceState where
  heap : List Conversation
  hist : List (String × Nat)
  t1 : RThread
  t2 : RThread

/-- One step of one request, as described above. -/
def threadStep (g : Conversation → String) (heap : List Conversation)
    (hist : List (String × Nat)) (th : RThread) :
    List Conversation × List (String × Nat) × RThread :=
  match th.pc with
  | 0 =>
      match alistLookup hist th.user with
      | some p =>
          (heap.set p ((heap.getD p []) ++ [⟨Role.user, .str th.msg⟩]), hist,
            { th with pc := 1, ptr := p })
      | none =>
          (heap ++ [[⟨Role.user, .str th.msg⟩]], hist,
            { th with pc := 1, ptr := heap.length })
  | 1 =>
      let c := heap.getD th.ptr []
      (heap.set th.ptr (c ++ [⟨Role.assistant, .str (g c)⟩]), hist,
        { th with pc := 2 })
  | 2 => (heap, alistInsert hist th.user th.ptr, { th with pc := 3 })
  | _ => (heap, hist, th)

/-- Let the thread chosen by `choice` (`false` = first) take its next
step. -/
def raceStep (g : Conversation → String) (s : RaceState) (choice : Bool) :
    RaceState :=
  if choice then
    match threadStep g s.heap s.hist s.t2 with
    | (h, d, t) => ⟨h, d, s.t1, t⟩
  else
    match threadStep g s.heap s.hist s.t1 with
    | (h, d, t) => ⟨h, d, t, s.t2⟩

/-- Run a schedule. -/
def raceRun (g : Conversation → String) (s : RaceState) : List Bool → RaceState
  | [] => s
  | c :: cs => raceRun g (raceStep g s c) cs

/-- Two requests for the same user `u`, messages `m1` and `m2`, against an
initially empty `conversation_history`. -/
def raceInit (u m1 m2 : String) : RaceState :=
  ⟨[], [], ⟨u, m1, 0, 0⟩, ⟨u, m2, 0, 0⟩⟩

/-- The conversation `conversation_history` holds for `u` at the end. -/
def storedConv (s : RaceState) (u : String) : Option Conversation :=
  (alistLookup s.hist u).map fun p => s.heap.getD p []

/-! ### Concrete fixtures used to instantiate the theorems -/

/-- A gateway that raises on every request (`Exception` message `msg`). -/
def gwRaise (msg : String) : Gateway := fun _ => .error msg

/-- A gateway that answers every request with the reply `r`. -/
def gwConst (r : String) : Gateway := fun _ => .ok r

/-- The store at process start: `conversation_history = {}` (empty). -/
def emptyStore : Store := fun _ => none

/-- The usual request body carrying one user message `m`. -/
def msgBody (m : String) : Json :=
  .obj [("messages", .arr [.obj [("role", .str "user"), ("content", .str m)]])]

/-! ### Helper lemmas -/

/-- Extraction (line 89) on a dict whose `messages` value is a list ending
in a dict: the result is that dict's `content` value, defaulting to `""`. -/
theorem extract_of_lastObj (kvs : List (String × Json)) (xs : List Json)
    (ekvs : List (String × Json))
    (h1 : jlookup kvs "messages" = some (.arr xs))
    (h2 : xs.getLast? = some (.obj ekvs)) :
    extractUserMessage (.obj kvs) = .ok ((jlookup ekvs "content").getD (.str "")) := by
  have hxs : xs.isEmpty = false := by
    cases xs with
    | nil => simp at h2
    | cons a as => rfl
  simp [extractUserMessage, pyDictGet, h1, pyTruthy, hxs, pyLastItem, h2]

/-- A non-empty string is Python-truthy. -/
theorem pyTruthy_str_of_ne (m : String) (hm : m ≠ "") :
    pyTruthy (.str m) = true := by
  simp [pyTruthy, hm]

/-- Overwriting the same key twice keeps only the second write. -/
theorem saveConv_saveConv (st : Store) (u : String) (a b : Conversation) :
    saveConv (saveConv st u a) u b = saveConv st u b := by
  funext k
  by_cases h : k = u <;> simp [saveConv, h]

/-! ### Claims -/

/-- On extraction-safe shapes the extraction line cannot raise. -/
theorem extract_ok_of_safe (data : Json) (h : extractionSafe data = true) :
    ∃ um, extractUserMessage data = .ok um := by
  cases data with
  | obj kvs =>
      simp only [extractionSafe] at h
      cases hm : jlookup kvs "messages" with
      | none => exact ⟨.str "", by simp [extractUserMessage, pyDictGet, hm, pyTruthy]⟩
      | some v =>
          simp only [hm] at h
          cases ht : pyTruthy v with
          | false =>
              refine ⟨.str "", ?_⟩
              simp [extractUserMessage, pyDictGet, hm, ht]
          | true =>
              simp only [ht, if_true] at h
              cases v with
              | arr xs =>
                  cases hl : xs.getLast? with
                  | none => simp only [hl] at h; exact absurd h (by simp)
                  | some last =>
                      simp only [hl] at h
                      cases last with
                      | obj ekvs => exact ⟨_, extract_of_lastObj kvs xs ekvs hm hl⟩
                      | null => simp at h
                      | bool b => simp at h
                      | num n => simp at h
                      | str s => simp at h
                      | arr ys => simp at h
              | null => simp at h
              | bool b => simp at h
              | num n => simp at h
              | str s => simp at h
              | obj okvs => simp at h
  | null => simp [extractionSafe] at h
  | bool b => simp [extractionSafe] at h
  | num n => simp [extractionSafe] at h
  | str s => simp [extractionSafe] at h
  | arr xs => simp [extractionSafe] at h

/-- C1 (code divergence): for a user whose conversation is ALREADY stored,
a gateway exception still leaves the stored conversation extended by a
dangling user turn.  `conversation_history.get(user_id, ...)` returns the
stored object itself and `history.add_user_message(...)` mutates it in
place before the gateway call, so although `save` is never reached on the
failure path, the 500 response leaves `conversation_history["alice"]`
holding `[user hi, assistant yo, user bye]`, not the pre-call value. -/
theorem chat_generation_failure_existing_user_dangles :
    chat (some (gwRaise "boom"))
        (saveConv emptyStore "alice" [⟨Role.user, .str "hi"⟩, ⟨Role.assistant, .str "yo"⟩])
        "alice" (msgBody "bye")
      = .ok (⟨500, errorBody "boom"⟩,
          saveConv (saveConv emptyStore "alice"
              [⟨Role.user, .str "hi"⟩, ⟨Role.assistant, .str "yo"⟩])
            "alice"
            [⟨Role.user, .str "hi"⟩, ⟨Role.assistant, .str "yo"⟩,
              ⟨Role.user, .str "bye"⟩]) ∧
    chatStore (some (gwRaise "boom"))
        (saveConv emptyStore "alice" [⟨Role.user, .str "hi"⟩, ⟨Role.assistant, .str "yo"⟩])
        "alice" (msgBody "bye") "alice"
      ≠ saveConv emptyStore "alice"
          [⟨Role.user, .str "hi"⟩, ⟨Role.assistant, .str "yo"⟩] "alice" := by
  refine ⟨rfl, ?_⟩
  intro h
  have h' : some ([⟨Role.user, .str "hi"⟩, ⟨Role.assistant, .str "yo"⟩,
        ⟨Role.user, .str "bye"⟩] : Conversation)
      = some [⟨Role.user, .str "hi"⟩, ⟨Role.assistant, .str "yo"⟩] := h
  simp at h'

/-- C2: with the pipeline unavailable (`none`), any request whose extracted
message is a non-empty string is answered `200` with body
`response = "Echo: <m> (Conversational AI not loaded)"`, the resulting
store is the input store (no write), and the response does not depend on
the store (no read). -/
theorem chat_degraded_mode_echo (st : Store) (u : String) (data : Json) (m : String)
    (hx : extractUserMessage data = .ok (.str m)) (hm : m ≠ "") :
    chat none st u data =
      .ok (⟨200, responseBody ("Echo: " ++ m ++ " (Conversational AI not loaded)")⟩, st) := by
  simp [chat, hx, pyTruthy_str_of_ne m hm, pyStr]

/-- Witness for C2. -/
theorem chat_degraded_mode_echo_witness :
    chat none emptyStore "alice" (msgBody "hello")
      = .ok (⟨200, responseBody "Echo: hello (Conversational AI not loaded)"⟩, emptyStore) :=
  chat_degraded_mode_echo emptyStore "alice" (msgBody "hello") "hello" rfl (by decide)

/-- C3: when the message is empty or absent — `messages` missing, the
empty list, or ending in a dict whose `content` is missing or `""` — the
handler answers `400` with `error = "Please provide a message"`, the store
is returned unchanged, and neither the gateway nor the store is consulted
(the response is the same for every `pipeline` and depends on `st` only
as the unchanged pass-through). -/
theorem chat_empty_or_absent_message (pipeline : Option Gateway) (st : Store) (u : String)
    (kvs : List (String × Json))
    (h : jlookup kvs "messages" = none ∨ jlookup kvs "messages" = some (.arr []) ∨
      ∃ xs ekvs, jlookup kvs "messages" = some (.arr xs) ∧ xs.getLast? = some (.obj ekvs) ∧
        (jlookup ekvs "content" = none ∨ jlookup ekvs "content" = some (.str ""))) :
    chat pipeline st u (.obj kvs) = .ok (⟨400, errorBody "Please provide a message"⟩, st) := by
  have hx : extractUserMessage (.obj kvs) = .ok (.str "") := by
    rcases h with h | h | ⟨xs, ekvs, h1, h2, h3⟩
    · simp [extractUserMessage, pyDictGet, h, pyTruthy]
    · simp [extractUserMessage, pyDictGet, h, pyTruthy]
    · rw [extract_of_lastObj kvs xs ekvs h1 h2]
      rcases h3 with h3 | h3 <;> simp [h3]
  simp [chat, hx, pyTruthy]

/-- Witness for C3. -/
theorem chat_empty_or_absent_message_witness :
    chat (some (gwConst "r")) emptyStore "alice" (.obj [("messages", .arr [])])
      = .ok (⟨400, errorBody "Please provide a message"⟩, emptyStore) :=
  chat_empty_or_absent_message (some (gwConst "r")) emptyStore "alice" _ (Or.inr (Or.inl rfl))

/-- C4: a successful call (pipeline loaded, gateway answers `r`) for a user
whose current stored conversation is `c` (`[]` when no entry exists, so a
first call stores exactly one user turn then one assistant turn) stores
`c ++ [user m, assistant r]`: the conversation grows by exactly two turns,
one user turn with content `m` followed by one assistant turn, in input
order, and the reply is returned with status 200. -/
theorem chat_success_appends_user_then_assistant (g : Gateway) (st : Store) (u : String)
    (data : Json) (m r : String) (c : Conversation)
    (hx : extractUserMessage data = .ok (.str m)) (hm : m ≠ "")
    (hc : (st u).getD [] = c)
    (hg : g (c ++ [⟨Role.user, .str m⟩]) = .ok r) :
    chat (some g) st u data =
      .ok (⟨200, responseBody r⟩,
        saveConv st u (c ++ [⟨Role.user, .str m⟩, ⟨Role.assistant, .str r⟩])) ∧
    saveConv st u (c ++ [⟨Role.user, .str m⟩, ⟨Role.assistant, .str r⟩]) u
      = some (c ++ [⟨Role.user, .str m⟩, ⟨Role.assistant, .str r⟩]) ∧
    (c ++ ([⟨Role.user, .str m⟩, ⟨Role.assistant, .str r⟩] : Conversation)).length
      = c.length + 2 := by
  refine ⟨?_, ?_, ?_⟩
  · cases hst : st u with
    | none =>
        have hc0 : c = [] := by rw [hst] at hc; simpa using hc.symm
        subst hc0
        simp only [List.nil_append] at hg
        simp [chat, hx, pyTruthy_str_of_ne m hm, hst, hg]
    | some c0 =>
        have hc0 : c0 = c := by rw [hst] at hc; simpa using hc
        subst hc0
        simp [chat, hx, pyTruthy_str_of_ne m hm, hst, hg, saveConv_saveConv]
  · simp [saveConv]
  · simp

/-- Witness for C4: a first call for a fresh user. -/
theorem chat_success_appends_user_then_assistant_witness :
    chat (some (gwConst "hi there")) emptyStore "alice" (msgBody "hi")
      = .ok (⟨200, responseBody "hi there"⟩,
          saveConv emptyStore "alice"
            [⟨Role.user, .str "hi"⟩, ⟨Role.assistant, .str "hi there"⟩]) ∧
    saveConv emptyStore "alice"
        [⟨Role.user, .str "hi"⟩, ⟨Role.assistant, .str "hi there"⟩] "alice"
      = some [⟨Role.user, .str "hi"⟩, ⟨Role.assistant, .str "hi there"⟩] ∧
    (([] : Conversation) ++
        ([⟨Role.user, .str "hi"⟩, ⟨Role.assistant, .str "hi there"⟩] : Conversation)).length
      = ([] : Conversation).length + 2 :=
  chat_success_appends_user_then_assistant (gwConst "hi there") emptyStore "alice"
    (msgBody "hi") "hi" "hi there" [] rfl (by decide) rfl rfl

/-- C5: the handler reads only the `content` field of the LAST element of
`messages`.  Two requests with the same user identifier, store and
pipeline whose `messages` lists both end in a dict and agree on that
dict's `content` value — differing arbitrarily in earlier elements, in
the other fields of the last element, and in other top-level fields —
produce identical results (same response AND same resulting store). -/
theorem chat_uses_only_last_content (pipeline : Option Gateway) (st : Store) (u : String)
    (kvs kvs' : List (String × Json)) (xs xs' : List Json)
    (ekvs ekvs' : List (String × Json))
    (h1 : jlookup kvs "messages" = some (.arr xs))
    (h1' : jlookup kvs' "messages" = some (.arr xs'))
    (h2 : xs.getLast? = some (.obj ekvs))
    (h2' : xs'.getLast? = some (.obj ekvs'))
    (hc : jlookup ekvs "content" = jlookup ekvs' "content") :
    chat pipeline st u (.obj kvs) = chat pipeline st u (.obj kvs') := by
  have key : extractUserMessage (.obj kvs) = extractUserMessage (.obj kvs') := by
    rw [extract_of_lastObj kvs xs ekvs h1 h2, extract_of_lastObj kvs' xs' ekvs' h1' h2', hc]
  unfold chat
  rw [key]

/-- Witness for C5: bodies with different earlier elements, different
extra fields on the last element and a different `role`, but the same
last `content`. -/
theorem chat_uses_only_last_content_witness :
    chat (some (gwConst "r")) emptyStore "alice"
        (.obj [("messages", .arr
          [.obj [("role", .str "user"), ("content", .str "ignored")],
           .obj [("role", .str "user"), ("content", .str "hello")]])])
      = chat (some (gwConst "r")) emptyStore "alice"
        (.obj [("messages", .arr
          [.obj [("content", .str "hello"), ("role", .str "assistant"), ("junk", .num 3)]]),
          ("extra", .bool true)]) :=
  chat_uses_only_last_content (some (gwConst "r")) emptyStore "alice" _ _ _ _ _ _
    rfl rfl rfl rfl rfl

/-- C6 counterexample: (i) a JSON body whose `messages` list ends in a
non-dict makes the extraction line raise `AttributeError` OUTSIDE the
try/except, so no JSON response is produced; (ii) a gateway failure for a
user with a stored conversation leaves the store changed mid-operation
(the dangling user turn), so failures are not free of partial updates. -/
theorem chat_uncaught_exception_and_partial_update :
    chat (some (gwConst "reply")) emptyStore "alice"
        (.obj [("messages", .arr [.str "hi"])])
      = .error .attributeError ∧
    chatStore (some (gwRaise "err"))
        (saveConv emptyStore "bob" [⟨Role.user, .str "q"⟩, ⟨Role.assistant, .str "a"⟩])
        "bob" (msgBody "again") "bob"
      ≠ saveConv emptyStore "bob"
          [⟨Role.user, .str "q"⟩, ⟨Role.assistant, .str "a"⟩] "bob" := by
  refine ⟨rfl, ?_⟩
  intro h
  have h' : some ([⟨Role.user, .str "q"⟩, ⟨Role.assistant, .str "a"⟩,
        ⟨Role.user, .str "again"⟩] : Conversation)
      = some [⟨Role.user, .str "q"⟩, ⟨Role.assistant, .str "a"⟩] := h
  simp at h'

/-- C6 (amended): on every request whose body is extraction-safe — a dict
whose `messages` entry is absent, falsy, or a list whose last element is a
dict — every failure is caught and answered as JSON: the handler returns
`.ok` (no escaping exception) with status 200, 400 or 500 and a JSON
object body. -/
theorem chat_safe_shape_json_response (pipeline : Option Gateway) (st : Store)
    (u : String) (data : Json) (h : extractionSafe data = true) :
    ∃ resp st', chat pipeline st u data = .ok (resp, st') ∧
      (resp.status = 200 ∨ resp.status = 400 ∨ resp.status = 500) ∧
      ∃ fields, resp.body = .obj fields := by
  obtain ⟨um, hx⟩ := extract_ok_of_safe data h
  cases ht : pyTruthy um with
  | false =>
      refine ⟨⟨400, errorBody "Please provide a message"⟩, st, ?_, by simp, ⟨_, rfl⟩⟩
      simp [chat, hx, ht]
  | true =>
      cases pipeline with
      | none =>
          refine ⟨⟨200,
            responseBody ("Echo: " ++ pyStr um ++ " (Conversational AI not loaded)")⟩,
            st, ?_, by simp, ⟨_, rfl⟩⟩
          simp [chat, hx, ht]
      | some g =>
          cases hsome : st u with
          | none =>
              cases hg : g [⟨Role.user, um⟩] with
              | error e =>
                  refine ⟨⟨500, errorBody e⟩, st, ?_, by simp, ⟨_, rfl⟩⟩
                  simp [chat, hx, ht, hsome, hg]
              | ok r =>
                  refine ⟨⟨200, responseBody r⟩,
                    saveConv st u [⟨Role.user, um⟩, ⟨Role.assistant, .str r⟩],
                    ?_, by simp, ⟨_, rfl⟩⟩
                  simp [chat, hx, ht, hsome, hg]
          | some c0 =>
              cases hg : g (c0 ++ [⟨Role.user, um⟩]) with
              | error e =>
                  refine ⟨⟨500, errorBody e⟩, saveConv st u (c0 ++ [⟨Role.user, um⟩]),
                    ?_, by simp, ⟨_, rfl⟩⟩
                  simp [chat, hx, ht, hsome, hg]
              | ok r =>
                  refine ⟨⟨200, responseBody r⟩,
                    saveConv st u (c0 ++ [⟨Role.user, um⟩, ⟨Role.assistant, .str r⟩]),
                    ?_, by simp, ⟨_, rfl⟩⟩
                  simp [chat, hx, ht, hsome, hg, saveConv_saveConv]

/-- Witness for the amended C6. -/
theorem chat_safe_shape_json_response_witness :
    extractionSafe (msgBody "hello") = true ∧
    ∃ resp st', chat (some (gwConst "ok")) emptyStore "alice" (msgBody "hello")
        = .ok (resp, st') ∧
      (resp.status = 200 ∨ resp.status = 400 ∨ resp.status = 500) ∧
      ∃ fields, resp.body = .obj fields :=
  ⟨rfl, chat_safe_shape_json_response (some (gwConst "ok")) emptyStore "alice"
    (msgBody "hello") rfl⟩

/-- C7 (code divergence): after a successful call, then a call on which the
gateway raises (leaving the dangling user turn of C1), then another
successful call, the stored conversation is
`[user m1, assistant r1, user m2, user m3, assistant r3]` — two adjacent
user turns — so the alternation invariant does not survive every handler
invocation (growth, by contrast, is append-only throughout). -/
theorem stored_conversation_alternation_violated :
    chatStore (some (gwConst "r3"))
        (chatStore (some (gwRaise "boom"))
          (chatStore (some (gwConst "r1")) emptyStore "alice" (msgBody "m1"))
          "alice" (msgBody "m2"))
        "alice" (msgBody "m3") "alice"
      = some [⟨Role.user, .str "m1"⟩, ⟨Role.assistant, .str "r1"⟩,
          ⟨Role.user, .str "m2"⟩, ⟨Role.user, .str "m3"⟩,
          ⟨Role.assistant, .str "r3"⟩] ∧
    alternates [⟨Role.user, .str "m1"⟩, ⟨Role.assistant, .str "r1"⟩,
        ⟨Role.user, .str "m2"⟩, ⟨Role.user, .str "m3"⟩,
        ⟨Role.assistant, .str "r3"⟩] = false :=
  ⟨rfl, rfl⟩

/-- C8 (code divergence): two concurrent successful requests for the fresh
user `alice` under the interleaving in which both perform the
`conversation_history.get` before either `save` runs (schedule
`[t1, t2, t1, t1, t2, t2]`): both requests complete (`pc = 3`), yet the
stored conversation holds only the second request's two turns — the first
request's turns are lost.  Under the fully serialized schedule the same
two requests leave the four turns the claim expects. -/
theorem race_lost_update :
    (raceRun (fun _ => "reply") (raceInit "alice" "hi" "yo")
        [false, true, false, false, true, true]).t1.pc = 3 ∧
    (raceRun (fun _ => "reply") (raceInit "alice" "hi" "yo")
        [false, true, false, false, true, true]).t2.pc = 3 ∧
    storedConv (raceRun (fun _ => "reply") (raceInit "alice" "hi" "yo")
        [false, true, false, false, true, true]) "alice"
      = some [⟨Role.user, .str "yo"⟩, ⟨Role.assistant, .str "reply"⟩] ∧
    storedConv (raceRun (fun _ => "reply") (raceInit "alice" "hi" "yo")
        [false, false, false, true, true, true]) "alice"
      = some [⟨Role.user, .str "hi"⟩, ⟨Role.assistant, .str "reply"⟩,
          ⟨Role.user, .str "yo"⟩, ⟨Role.assistant, .str "reply"⟩] :=
  ⟨rfl, rfl, rfl, rfl⟩

/-- C9: a non-empty `messages` list whose last element is a dict without a
`"content"` key extracts to `""` and is treated exactly like an empty
message: `400`, store unchanged, gateway not consulted. -/
theorem chat_missing_content_field (pipeline : Option Gateway) (st : Store) (u : String)
    (kvs : List (String × Json)) (xs : List Json) (ekvs : List (String × Json))
    (h1 : jlookup kvs "messages" = some (.arr xs))
    (h2 : xs.getLast? = some (.obj ekvs))
    (h3 : jlookup ekvs "content" = none) :
    chat pipeline st u (.obj kvs) = .ok (⟨400, errorBody "Please provide a message"⟩, st) := by
  have hx : extractUserMessage (.obj kvs) = .ok (.str "") := by
    rw [extract_of_lastObj kvs xs ekvs h1 h2, h3]
    rfl
  simp [chat, hx, pyTruthy]

/-- Witness for C9. -/
theorem chat_missing_content_field_witness :
    chat (some (gwConst "r")) emptyStore "alice"
        (.obj [("messages", .arr [.obj [("role", .str "user")]])])
      = .ok (⟨400, errorBody "Please provide a message"⟩, emptyStore) :=
  chat_missing_content_field (some (gwConst "r")) emptyStore "alice" _ _ _ rfl rfl rfl

/-- C10: a gateway exception for a user with NO stored conversation leaves
the store exactly as it was (the fresh conversation was never stored, no
key is created, every other user's entry is untouched), and the handler
answers `500` with the exception text. -/
theorem chat_generation_failure_fresh_user (g : Gateway) (st : Store) (u : String)
    (data : Json) (m e : String)
    (hx : extractUserMessage data = .ok (.str m)) (hm : m ≠ "")
    (hu : st u = none)
    (hg : g [⟨Role.user, .str m⟩] = .error e) :
    chat (some g) st u data = .ok (⟨500, errorBody e⟩, st) := by
  simp [chat, hx, pyTruthy_str_of_ne m hm, hu, hg]

/-- Witness for C10. -/
theorem chat_generation_failure_fresh_user_witness :
    chat (some (gwRaise "boom")) emptyStore "alice" (msgBody "hi")
      = .ok (⟨500, errorBody "boom"⟩, emptyStore) :=
  chat_generation_failure_fresh_user (gwRaise "boom") emptyStore "alice" (msgBody "hi")
    "hi" "boom" rfl (by decide) rfl rfl
